import Mathlib

/-!
# Verification of the AISR authentication-and-workflow core

A shallow embedding, in Lean 4, of the authentication client
(`data_pipeline/aisr/authenticate.py`), the action primitives
(`data_pipeline/aisr/actions.py`) and the workflow executor
(`data_pipeline/etl_workflow.py`, function `run_aisr_workflow`) of the
immunization-records pipeline, together with theorems settling the
behavioural claims of the specification.

HTTP is modelled functionally: every embedded function receives the remote
responses it would observe as an explicit "world" argument and returns,
besides its result, the trace of outbound HTTP requests it issues (each
request recording the call site's kind and the literal `timeout` argument
passed at that call site in the source).  Python exceptions become `Except`
values; the exception classes of the source become constructors of an error
type.
-/

set_option autoImplicit false

namespace AISR

/-! ## URL and query-string parsing

Model of the pieces of Python's `urllib.parse` the source uses:
`urlparse(u).query`, `urlparse(u).fragment` and `parse_qs`.  Strings are
handled as explicit character lists so that everything reduces in the
kernel.  Percent-decoding is the identity here: none of the inputs the
source's callers produce (opaque correlation tokens and authorization
codes) contain percent-escapes.
-/

/-- Split a character list at the first occurrence of `c`: returns the part
before it and, when `c` occurs, the part after it. -/
def breakAtFirst (c : Char) : List Char → List Char × Option (List Char)
  | [] => ([], none)
  | x :: xs =>
    if x = c then ([], some xs)
    else
      let r := breakAtFirst c xs
      (x :: r.1, r.2)

/-- Split a character list on every occurrence of `c` (like
`str.split(c)` in Python: `n` separators yield `n+1` chunks). -/
def splitOnChar (c : Char) : List Char → List (List Char)
  | [] => [[]]
  | x :: xs =>
    if x = c then [] :: splitOnChar c xs
    else
      match splitOnChar c xs with
      | [] => [[x]]
      | r :: rs => (x :: r) :: rs

/-- `urlparse(u).fragment`: everything after the first `#`, empty when
there is none. -/
def urlFragmentChars (s : List Char) : List Char :=
  ((breakAtFirst '#' s).2).getD []

/-- `urlparse(u).query`: in the part before the fragment, everything after
the first `?`, empty when there is none. -/
def urlQueryChars (s : List Char) : List Char :=
  ((breakAtFirst '?' (breakAtFirst '#' s).1).2).getD []

/-- `urllib.parse.parse_qsl` with its default arguments: split the string
on `&`; drop empty chunks, chunks with no `=` and chunks whose value is
empty (blank values are not kept). -/
def parseQsl (s : List Char) : List (List Char × List Char) :=
  (splitOnChar '&' s).filterMap fun chunk =>
    match breakAtFirst '=' chunk with
    | (_, none) => none
    | (name, some value) => if value = [] then none else some (name, value)

/-- `parse_qs(s)[key][0]` / `parse_qs(s).get(key)` head: the first value
listed for `key`, if any (Python appends values in order, so the head of
the dict entry is the first matching pair). -/
def qsFirst (pairs : List (List Char × List Char)) (key : List Char) :
    Option (List Char) :=
  (pairs.find? fun p => p.1 == key).map (·.2)

/-! ## Data model of `authenticate.py` -/

/-- The exceptions the authentication client can raise, one constructor per
exception class (or per `raise` site using a builtin class) in
`authenticate.py`.  `loginFormNotFound` embeds the `ValueError`s raised in
`_get_session_code_and_tab_id` — the spec's name for this distinct failure;
`keyError` the `KeyError` a `query_dict[...]` lookup can raise;
`codeNotFound` the `CodeNotFoundError` class; `tokenRequest` the
`TokenRequestError` class (carrying status code and message). -/
inductive AuthError where
  | loginFormNotFound (message : String)
  | keyError (key : String)
  | codeNotFound (message : String)
  | tokenRequest (statusCode : Nat) (message : String)
  deriving DecidableEq, Repr

/-- The `AISRAuthResponse` dataclass. -/
structure AISRAuthResponse where
  is_successful : Bool
  message : String
  access_token : Option String := none
  deriving DecidableEq, Repr

/-- The identifiable outbound HTTP call sites of the core. -/
inductive CallKind where
  | authPageGet      -- GET auth page, in `_get_session_code_and_tab_id`
  | credentialPost   -- POST credentials, in `login`
  | tokenPost        -- POST code for token, in `_get_access_token_using_response_code`
  | logoutGet        -- GET logout endpoint, in `logout`
  | signingPost      -- POST to `/signing/puturl`, in `_get_put_url`
  | s3Put            -- PUT file bytes to the signed URL, in `_put_file_to_s3`
  deriving DecidableEq, Repr

/-- One outbound HTTP request: the call site it comes from and the literal
`timeout` argument (in seconds) passed at that call site in the source
(`none` when the call passes no `timeout` at all). -/
structure HttpRequest where
  kind : CallKind
  timeout : Option Nat
  deriving DecidableEq, Repr

/-- A value of a tag attribute as BeautifulSoup's `Tag.get` returns it:
a string, or a list of strings for multi-valued attributes. -/
inductive AttrValue where
  | str (s : String)
  | list (l : List String)
  deriving DecidableEq, Repr

/-- The form `Tag`, keeping the one attribute read by the source:
`form_element.get("action")` (`none` when the attribute is absent). -/
structure FormTag where
  action : Option AttrValue
  deriving DecidableEq, Repr

/-- Result of `soup.find("form", id="kc-form-login")` followed by the
source's `isinstance(form_element, Tag)` guard: the element is missing,
present but not a `Tag` node, or a `Tag`. -/
inductive FindFormResult where
  | missing
  | notTag
  | tag (f : FormTag)
  deriving DecidableEq, Repr

/-- The parsed login page: what the HTML body of the auth-page GET yields
once searched for the login form. -/
structure LoginPage where
  findLoginForm : FindFormResult
  deriving DecidableEq, Repr

/-- The response to the credential POST, keeping the fields the source
reads: the status code and `headers.get("Location")`. -/
structure CredResponse where
  statusCode : Nat
  location : Option String
  deriving DecidableEq, Repr

/-- The response to the token POST, keeping the fields the source reads:
status code, `response.json().get("access_token")` and `response.text`. -/
structure TokenResponse where
  statusCode : Nat
  access_token : Option String
  text : String
  deriving DecidableEq, Repr

/-- The remote behaviour one `login` call observes: the parsed auth page,
the credential response, whether the session's cookie jar holds
`KEYCLOAK_IDENTITY` after the credential POST, and the token response. -/
structure AuthWorld where
  page : LoginPage
  cred : CredResponse
  keycloakIdentityCookie : Bool
  token : TokenResponse
  deriving DecidableEq, Repr

/-! ## `authenticate.py`, embedded -/

/-- `_get_session_code_and_tab_id`, parsing part: given the parsed login
page, extract `session_code` and `tab_id` from the query string of the
form's `action` URL, or fail exactly where the source raises. -/
def getSessionCodeAndTabId (page : LoginPage) :
    Except AuthError (String × String) :=
  match page.findLoginForm with
  | .tag f =>
    match f.action with
    | some (.str actionUrl) =>
      let q := parseQsl (urlQueryChars actionUrl.data)
      match qsFirst q "session_code".data with
      | none => .error (.keyError "session_code")
      | some sc =>
        match qsFirst q "tab_id".data with
        | none => .error (.keyError "tab_id")
        | some ti => .ok (⟨sc⟩, ⟨ti⟩)
    | _ => .error (.loginFormNotFound "The action URL is not a valid string.")
  | _ =>
    .error (.loginFormNotFound
      "Login form not found or is not a valid HTML form element.")

/-- `_get_code_from_response`: read the `Location` header (Python's
`if location:` is false both for a missing header and for an empty one)
and parse its *fragment* with `parse_qs`, taking `code`'s first value. -/
def getCodeFromResponse (r : CredResponse) : Except AuthError String :=
  match r.location with
  | some location =>
    if location = "" then
      .error (.codeNotFound "Code not found in response Location header.")
    else
      match qsFirst (parseQsl (urlFragmentChars location.data)) "code".data with
      | some code => .ok ⟨code⟩
      | none => .error (.codeNotFound "Code not found in response fragment.")
  | none => .error (.codeNotFound "Code not found in response Location header.")

/-- `_get_access_token_using_response_code`, result part: a non-200 status
raises `TokenRequestError` with the status and body; otherwise the result
is `response.json().get("access_token")` (which may be absent). -/
def getAccessTokenUsingResponseCode (t : TokenResponse) :
    Except AuthError (Option String) :=
  if t.statusCode ≠ 200 then .error (.tokenRequest t.statusCode t.text)
  else .ok t.access_token

/-- `login`: GET the auth page and extract the correlation tokens (any
failure propagates before the credential POST); POST the credentials; on
a 302 with the `KEYCLOAK_IDENTITY` cookie present, extract the code from
the redirect and exchange it at the token endpoint, returning a successful
`AISRAuthResponse` carrying the token; otherwise return an unsuccessful
response.  The first component is the trace of outbound requests with the
literal `timeout` argument of each call site (the source passes none). -/
def login (w : AuthWorld) :
    List HttpRequest × Except AuthError AISRAuthResponse :=
  match getSessionCodeAndTabId w.page with
  | .error e => ([⟨.authPageGet, none⟩], .error e)
  | .ok _ =>
    if w.cred.statusCode = 302 ∧ w.keycloakIdentityCookie then
      match getCodeFromResponse w.cred with
      | .error e => ([⟨.authPageGet, none⟩, ⟨.credentialPost, none⟩], .error e)
      | .ok _code =>
        match getAccessTokenUsingResponseCode w.token with
        | .error e =>
          ([⟨.authPageGet, none⟩, ⟨.credentialPost, none⟩, ⟨.tokenPost, none⟩],
            .error e)
        | .ok tok =>
          ([⟨.authPageGet, none⟩, ⟨.credentialPost, none⟩, ⟨.tokenPost, none⟩],
            .ok { is_successful := true
                  message := "Logged in successfully"
                  access_token := tok })
    else
      ([⟨.authPageGet, none⟩, ⟨.credentialPost, none⟩],
        .ok { is_successful := false
              message := "Login failed or KEYCLOAK_IDENTITY cookie is missing" })

/-- The response to the logout GET, keeping status and body; the source
never reads either. -/
structure LogoutResponse where
  statusCode : Nat
  text : String
  deriving DecidableEq, Repr

set_option linter.unusedVariables false in
/-- `logout`: GET the logout endpoint (no `timeout` argument) and return a
successful `AISRAuthResponse` without inspecting the response. -/
def logout (resp : LogoutResponse) : List HttpRequest × AISRAuthResponse :=
  ([⟨.logoutGet, none⟩],
    { is_successful := true
      message := "Logged out successfully" })

/-! ## `actions.py`, embedded -/

/-- The `AISRActionFailedException` class. -/
inductive ActionError where
  | actionFailed (message : String)
  deriving DecidableEq, Repr

/-- The `AISRFileUploadResponse` dataclass. -/
structure AISRFileUploadResponse where
  is_successful : Bool
  message : String
  deriving DecidableEq, Repr

/-- The `SchoolQueryInformation` dataclass. -/
structure SchoolQueryInformation where
  school_name : String
  classification : String
  school_id : String
  email_contact : String
  query_file_path : Option String := none
  deriving DecidableEq, Repr

/-- The response to the signing POST, keeping the field the source reads:
the `url` field of the JSON-decoded body. -/
structure SigningResponse where
  url : Option String
  deriving DecidableEq, Repr

/-- The response to the S3 PUT, keeping the fields the source reads:
status code and `res.text`. -/
structure S3Response where
  statusCode : Nat
  text : String
  deriving DecidableEq, Repr

/-- The f-string of the `raise` in `_put_file_to_s3`:
`f"Failed to upload file: {res.status_code} - {res.text}"`. -/
def uploadFailMessage (statusCode : Nat) (text : String) : String :=
  "Failed to upload file: " ++ toString statusCode ++ " - " ++ text

/-- `_get_put_url`: POST the descriptor to `/signing/puturl` with
`timeout=60` and return the response JSON's `url` field. -/
def getPutUrl (resp : SigningResponse) : List HttpRequest × Option String :=
  ([⟨.signingPost, some 60⟩], resp.url)

/-- `_put_file_to_s3`: PUT the file bytes to the signed URL with
`timeout=60`; a 200 yields a successful `AISRFileUploadResponse`, any
other status raises `AISRActionFailedException` carrying the status and
the response body. -/
def putFileToS3 (resp : S3Response) :
    List HttpRequest × Except ActionError AISRFileUploadResponse :=
  ([⟨.s3Put, some 60⟩],
    if resp.statusCode = 200 then
      .ok { is_successful := true, message := "File uploaded successfully" }
    else
      .error (.actionFailed (uploadFailMessage resp.statusCode resp.text)))

/-- `bulk_query_aisr`: fail if no query file path is set; otherwise request
the signed URL and PUT the file to it.  No exception is caught here: a
failure of `_put_file_to_s3` propagates unchanged to the caller. -/
def bulkQueryAisr (info : SchoolQueryInformation) (signing : SigningResponse)
    (put : S3Response) :
    List HttpRequest × Except ActionError AISRFileUploadResponse :=
  match info.query_file_path with
  | none => ([], .error (.actionFailed "Query file path is not set."))
  | some _ =>
    let r1 := getPutUrl signing
    let r2 := putFileToS3 put
    match r2.2 with
    | .error e => (r1.1 ++ r2.1, .error e)
    | .ok _ =>
      (r1.1 ++ r2.1,
        .ok { is_successful := true, message := "File uploaded successfully" })

/-! ## `etl_workflow.py` — the workflow executor, embedded

`run_aisr_workflow` receives a login function, a list of action functions
and a logout function.  A test double for the login function either
returns an `AISRAuthResponse` or raises an authentication error; a test
double for an action, given the access token, either returns normally or
raises `AISRActionFailedException` with a message.  The executor's
observable behaviour is the ordered event trace (calls made, errors
logged) together with the exception it lets escape, if any.
-/

/-- Behaviour of an injected login function: return a response, or raise a
fatal authentication error. -/
inductive LoginBehavior where
  | returns (r : AISRAuthResponse)
  | raises (e : AuthError)
  deriving DecidableEq, Repr

/-- What an injected action does when called with the access token:
return normally or raise `AISRActionFailedException message`. -/
inductive ActionOutcome where
  | ok
  | fail (message : String)
  deriving DecidableEq, Repr

/-- An injected action: its `__name__` and its behaviour as a function of
the access token it is passed. -/
structure WorkflowAction where
  name : String
  run : Option String → ActionOutcome

/-- Observable events of one `run_aisr_workflow` run, in order. -/
inductive WorkflowEvent where
  | loginCalled
  | actionCalled (name : String)
  | errorLogged (name : String) (message : String)
  | logoutCalled
  deriving DecidableEq, Repr

/-- The `for action in aisr_actions` loop of `run_aisr_workflow`: each
action is called once, in list order, with the access token; a raised
`AISRActionFailedException` is caught and logged with the action's
`__name__` and message, and the loop continues. -/
def actionLoopEvents (access_token : Option String) :
    List WorkflowAction → List WorkflowEvent
  | [] => []
  | a :: rest =>
    (match a.run access_token with
     | .ok => [.actionCalled a.name]
     | .fail msg => [.actionCalled a.name, .errorLogged a.name msg]) ++
      actionLoopEvents access_token rest

/-- `run_aisr_workflow`: call `login(session)`; for each action in list
order call it with `aisr_response.access_token`, catching
`AISRActionFailedException` and logging the action's name and message;
then call `logout(session)`.  There is no `try/finally`: if the login
function raises, the exception escapes the `with` block before any action
or the logout call runs.  Returns the event trace and the escaped
exception, if any (the Python function returns `None`). -/
def runAisrWorkflow (loginFn : LoginBehavior) (actions : List WorkflowAction) :
    List WorkflowEvent × Option AuthError :=
  match loginFn with
  | .raises e => ([.loginCalled], some e)
  | .returns r =>
    (.loginCalled :: actionLoopEvents r.access_token actions ++ [.logoutCalled],
      none)

/-- The names of the actions invoked during a run, in invocation order. -/
def invokedActions (trace : List WorkflowEvent) : List String :=
  trace.filterMap fun
    | .actionCalled n => some n
    | _ => none

/-- The `(action name, message)` pairs logged as errors during a run, in
order. -/
def loggedErrors (trace : List WorkflowEvent) : List (String × String) :=
  trace.filterMap fun
    | .errorLogged n m => some (n, m)
    | _ => none

/-- How many times the logout function was called during a run. -/
def logoutCount : List WorkflowEvent → Nat
  | [] => 0
  | .logoutCalled :: rest => logoutCount rest + 1
  | _ :: rest => logoutCount rest

/-! ## Helper lemmas about the executor's trace -/

theorem logoutCount_append (l₁ l₂ : List WorkflowEvent) :
    logoutCount (l₁ ++ l₂) = logoutCount l₁ + logoutCount l₂ := by
  induction l₁ with
  | nil => simp [logoutCount]
  | cons ev rest ih =>
    cases ev <;> simp [logoutCount, ih]
    omega

theorem logoutCount_actionLoop (tok : Option String)
    (acts : List WorkflowAction) :
    logoutCount (actionLoopEvents tok acts) = 0 := by
  induction acts with
  | nil => rfl
  | cons a rest ih =>
    cases h : a.run tok <;>
      simp [actionLoopEvents, h, logoutCount_append, logoutCount, ih]

theorem invokedActions_append (l₁ l₂ : List WorkflowEvent) :
    invokedActions (l₁ ++ l₂) = invokedActions l₁ ++ invokedActions l₂ := by
  simp [invokedActions]

theorem invokedActions_actionLoop (tok : Option String)
    (acts : List WorkflowAction) :
    invokedActions (actionLoopEvents tok acts) = acts.map (·.name) := by
  induction acts with
  | nil => rfl
  | cons a rest ih =>
    cases h : a.run tok <;>
      simp [actionLoopEvents, h, invokedActions_append, invokedActions] at ih ⊢ <;>
      exact ih

theorem loggedErrors_append (l₁ l₂ : List WorkflowEvent) :
    loggedErrors (l₁ ++ l₂) = loggedErrors l₁ ++ loggedErrors l₂ := by
  simp [loggedErrors]

theorem loggedErrors_actionLoop (tok : Option String)
    (acts : List WorkflowAction) :
    loggedErrors (actionLoopEvents tok acts) =
      acts.filterMap fun a =>
        match a.run tok with
        | .ok => none
        | .fail msg => some (a.name, msg) := by
  induction acts with
  | nil => rfl
  | cons a rest ih =>
    cases h : a.run tok <;>
      simp [actionLoopEvents, h, loggedErrors_append, loggedErrors] at ih ⊢ <;>
      exact ih

/-! ## Claims about the workflow executor (C1, C2, C3) -/

/-- Claim C1, counterexample.  The claim states that when the login
function returns an `AISRAuthResponse` with `is_successful = false` the
Executor invokes none of the actions and reports an authentication failure
to its caller.  On the code, a run whose login function returns exactly the
unsuccessful response `login` produces still invokes the action in its
list, and the run escapes no failure: `run_aisr_workflow` never reads
`is_successful`. -/
theorem run_aisr_workflow_runs_actions_after_failed_login :
    WorkflowEvent.actionCalled "bulk_query" ∈
      (runAisrWorkflow
        (.returns
          { is_successful := false
            message := "Login failed or KEYCLOAK_IDENTITY cookie is missing" })
        [{ name := "bulk_query", run := fun _ => .ok }]).1 ∧
    (runAisrWorkflow
        (.returns
          { is_successful := false
            message := "Login failed or KEYCLOAK_IDENTITY cookie is missing" })
        [{ name := "bulk_query", run := fun _ => .ok }]).2 = none := by
  exact ⟨by decide, rfl⟩

set_option linter.unusedVariables false in
/-- Claim C1, amended: when the login function returns an unsuccessful
`AISRAuthResponse`, the Executor still invokes every action in list order
(passing the absent access token), still calls the logout function exactly
once, and reports no failure to its caller — the hypothesis on
`is_successful` is never read by `run_aisr_workflow`. -/
theorem run_aisr_workflow_ignores_login_result
    (r : AISRAuthResponse) (acts : List WorkflowAction)
    (h : r.is_successful = false) :
    invokedActions (runAisrWorkflow (.returns r) acts).1 =
      acts.map (·.name) ∧
    logoutCount (runAisrWorkflow (.returns r) acts).1 = 1 ∧
    (runAisrWorkflow (.returns r) acts).2 = none := by
  refine ⟨?_, ?_, rfl⟩
  · have hl := invokedActions_actionLoop r.access_token acts
    simp only [invokedActions] at hl
    simp [runAisrWorkflow, invokedActions, hl]
  · simp [runAisrWorkflow, logoutCount_append, logoutCount,
      logoutCount_actionLoop]

/-- Claim C1 amended, witness at a concrete unsuccessful login and a
one-action list. -/
theorem run_aisr_workflow_ignores_login_result_witness :
    (AISRAuthResponse.is_successful
        { is_successful := false
          message := "Login failed or KEYCLOAK_IDENTITY cookie is missing" } =
      false) ∧
    (invokedActions
        (runAisrWorkflow
          (.returns
            { is_successful := false
              message := "Login failed or KEYCLOAK_IDENTITY cookie is missing" })
          [{ name := "upload", run := fun _ => .ok }]).1 =
      [{ name := "upload", run := fun _ => ActionOutcome.ok : WorkflowAction}].map
        (·.name) ∧
    logoutCount
        (runAisrWorkflow
          (.returns
            { is_successful := false
              message := "Login failed or KEYCLOAK_IDENTITY cookie is missing" })
          [{ name := "upload", run := fun _ => .ok }]).1 = 1 ∧
    (runAisrWorkflow
        (.returns
          { is_successful := false
            message := "Login failed or KEYCLOAK_IDENTITY cookie is missing" })
        [{ name := "upload", run := fun _ => .ok }]).2 = none) :=
  ⟨rfl,
    run_aisr_workflow_ignores_login_result
      { is_successful := false
        message := "Login failed or KEYCLOAK_IDENTITY cookie is missing" }
      [{ name := "upload", run := fun _ => .ok }] rfl⟩

/-- Claim C2, counterexample.  The claim states that logout is called
exactly once even when the login function raises a fatal authentication
error.  On the code, when the login function raises `CodeNotFoundError`,
the run calls logout zero times and the error escapes: there is no
`try/finally` around the body of `run_aisr_workflow`. -/
theorem run_aisr_workflow_skips_logout_when_login_raises :
    logoutCount
        (runAisrWorkflow
          (.raises (.codeNotFound "Code not found in response fragment."))
          [{ name := "bulk_query", run := fun _ => .ok }]).1 = 0 ∧
    (runAisrWorkflow
        (.raises (.codeNotFound "Code not found in response fragment."))
        [{ name := "bulk_query", run := fun _ => .ok }]).2 =
      some (.codeNotFound "Code not found in response fragment.") :=
  ⟨rfl, rfl⟩

/-- Claim C2, amended: the logout function is called exactly once whenever
the login function returns (successfully or not), regardless of how many
actions failed; but when the login function raises a fatal authentication
error, logout is not called at all and the error propagates to the
Executor's caller. -/
theorem run_aisr_workflow_logout_discipline
    (r : AISRAuthResponse) (acts : List WorkflowAction) (e : AuthError) :
    logoutCount (runAisrWorkflow (.returns r) acts).1 = 1 ∧
    logoutCount (runAisrWorkflow (.raises e) acts).1 = 0 ∧
    (runAisrWorkflow (.raises e) acts).2 = some e := by
  refine ⟨?_, rfl, rfl⟩
  simp [runAisrWorkflow, logoutCount_append, logoutCount,
    logoutCount_actionLoop]

/-- Claim C3: whatever the individual action outcomes (in particular when
the actions at two distinct positions fail), the Executor invokes all the
actions exactly once each, strictly in list order, catches each
action-specific failure and logs it with the action's name and message,
continues past it, and lets nothing escape — one action's failure has no
effect on any other action's execution or outcome. -/
theorem run_aisr_workflow_isolates_action_failures
    (r : AISRAuthResponse) (acts : List WorkflowAction) :
    invokedActions (runAisrWorkflow (.returns r) acts).1 =
      acts.map (·.name) ∧
    loggedErrors (runAisrWorkflow (.returns r) acts).1 =
      (acts.filterMap fun a =>
        match a.run r.access_token with
        | .ok => none
        | .fail msg => some (a.name, msg)) ∧
    (runAisrWorkflow (.returns r) acts).2 = none := by
  refine ⟨?_, ?_, rfl⟩
  · have hl := invokedActions_actionLoop r.access_token acts
    simp only [invokedActions] at hl
    simp [runAisrWorkflow, invokedActions, hl]
  · have hl := loggedErrors_actionLoop r.access_token acts
    simp only [loggedErrors] at hl
    simp [runAisrWorkflow, loggedErrors, hl]

/-! ## Claims about the authentication client (C4, C5, C6, C7) -/

/-- Claim C4, counterexample.  The claim states that authorization-code
extraction parses the `Location` header's fragment *or its query* (either
may carry the code).  On the code, a `Location` whose query — not its
fragment — carries `code=test_code` makes extraction raise
`CodeNotFoundError` instead of returning `"test_code"`:
`_get_code_from_response` parses only the fragment. -/
theorem get_code_ignores_query_code :
    getCodeFromResponse
        { statusCode := 302
          location := some "https://host/home?code=test_code" } =
      .error (.codeNotFound "Code not found in response fragment.") := by
  rfl

/-- Claim C4, amended: authorization-code extraction reads the response's
`Location` header and parses only its *fragment* for a `code` value;
extraction of `Location: https://host/home#code=test_code` returns
`"test_code"`, and a missing `Location` header, or a `Location` whose
fragment carries no `code` value (even when its query does), raises the
distinct fatal error `CodeNotFound`. -/
theorem get_code_parses_fragment_only (status : Nat) (loc : String)
    (h : qsFirst (parseQsl (urlFragmentChars loc.data)) "code".data = none) :
    getCodeFromResponse
        { statusCode := status
          location := some "https://host/home#code=test_code" } =
      .ok "test_code" ∧
    getCodeFromResponse { statusCode := status, location := none } =
      .error (.codeNotFound "Code not found in response Location header.") ∧
    ∃ msg, getCodeFromResponse { statusCode := status, location := some loc } =
      .error (.codeNotFound msg) := by
  refine ⟨rfl, rfl, ?_⟩
  by_cases hloc : loc = ""
  · exact ⟨"Code not found in response Location header.",
      by simp [getCodeFromResponse, hloc]⟩
  · exact ⟨"Code not found in response fragment.",
      by simp [getCodeFromResponse, hloc, h]⟩

/-- Claim C4 amended, witness: status 302 and a `Location` that carries the
code only in its query. -/
theorem get_code_parses_fragment_only_witness :
    qsFirst
        (parseQsl (urlFragmentChars "https://host/home?code=test_code".data))
        "code".data = none ∧
    (getCodeFromResponse
        { statusCode := 302
          location := some "https://host/home#code=test_code" } =
      .ok "test_code" ∧
    getCodeFromResponse { statusCode := 302, location := none } =
      .error (.codeNotFound "Code not found in response Location header.") ∧
    ∃ msg,
      getCodeFromResponse
          { statusCode := 302
            location := some "https://host/home?code=test_code" } =
        .error (.codeNotFound msg)) :=
  ⟨by decide,
    get_code_parses_fragment_only 302 "https://host/home?code=test_code"
      (by decide)⟩

/-- Claim C5: when the auth page parses, the credential response is a 302
with the `KEYCLOAK_IDENTITY` cookie present, a code is extractable from
the redirect, and the token endpoint answers 200 with a non-empty
`access_token`, then `login` returns an `AISRAuthResponse` with
`is_successful = true` whose `access_token` is exactly the token the
endpoint returned — in particular non-empty. -/
theorem login_success_token_exact (w : AuthWorld) (sc ti t : String)
    (hpage : getSessionCodeAndTabId w.page = .ok (sc, ti))
    (hstatus : w.cred.statusCode = 302)
    (hcookie : w.keycloakIdentityCookie = true)
    (hcode : ∃ c, getCodeFromResponse w.cred = .ok c)
    (htok : w.token.statusCode = 200)
    (hval : w.token.access_token = some t)
    (hne : t ≠ "") :
    (login w).2 =
      .ok { is_successful := true
            message := "Logged in successfully"
            access_token := some t } ∧
    t ≠ "" := by
  obtain ⟨c, hc⟩ := hcode
  refine ⟨?_, hne⟩
  simp [login, hpage, hstatus, hcookie, hc,
    getAccessTokenUsingResponseCode, htok, hval]

/-- Claim C5, witness: a concrete world with a parseable page, a 302 with
cookie, an extractable code, and a token endpoint returning `"tok123"`. -/
theorem login_success_token_exact_witness :
    getSessionCodeAndTabId
        ⟨.tag ⟨some (.str "http://x/auth?session_code=sc1&tab_id=t1")⟩⟩ =
      .ok ("sc1", "t1") ∧
    ((login
        { page := ⟨.tag ⟨some (.str "http://x/auth?session_code=sc1&tab_id=t1")⟩⟩
          cred := { statusCode := 302, location := some "https://host/home#code=abc" }
          keycloakIdentityCookie := true
          token := { statusCode := 200, access_token := some "tok123", text := "" } }).2 =
      .ok { is_successful := true
            message := "Logged in successfully"
            access_token := some "tok123" } ∧
    "tok123" ≠ "") :=
  ⟨rfl,
    login_success_token_exact
      { page := ⟨.tag ⟨some (.str "http://x/auth?session_code=sc1&tab_id=t1")⟩⟩
        cred := { statusCode := 302, location := some "https://host/home#code=abc" }
        keycloakIdentityCookie := true
        token := { statusCode := 200, access_token := some "tok123", text := "" } }
      "sc1" "t1" "tok123" rfl rfl rfl ⟨"abc", rfl⟩ rfl rfl (by decide)⟩

/-- An HTTP status of the redirection class. -/
def isRedirectStatus (s : Nat) : Prop := 300 ≤ s ∧ s < 400

instance (s : Nat) : Decidable (isRedirectStatus s) := by
  unfold isRedirectStatus
  infer_instance

/-- Claim C6: when the auth page parses but the credential response's
status is not a redirect status, or the session does not hold the
`KEYCLOAK_IDENTITY` cookie, `login` returns — as a normal result, not a
raised exception — an `AISRAuthResponse` with `is_successful = false` and
`access_token = none`. -/
theorem login_failure_is_returned (w : AuthWorld) (sc ti : String)
    (hpage : getSessionCodeAndTabId w.page = .ok (sc, ti))
    (h : ¬ isRedirectStatus w.cred.statusCode ∨
         w.keycloakIdentityCookie = false) :
    (login w).2 =
      .ok { is_successful := false
            message := "Login failed or KEYCLOAK_IDENTITY cookie is missing"
            access_token := none } := by
  have hcond : ¬ (w.cred.statusCode = 302 ∧ w.keycloakIdentityCookie) := by
    rcases h with h | h
    · intro hc
      exact h (by rw [hc.1]; exact ⟨by omega, by omega⟩)
    · intro hc
      rw [h] at hc
      exact Bool.false_ne_true hc.2
  simp [login, hpage, hcond]

/-- Claim C6, witness: a parseable page, a 200 credential response and a
missing identity cookie. -/
theorem login_failure_is_returned_witness :
    getSessionCodeAndTabId
        ⟨.tag ⟨some (.str "http://x/auth?session_code=sc1&tab_id=t1")⟩⟩ =
      .ok ("sc1", "t1") ∧
    (¬ isRedirectStatus 200 ∨ false = false) ∧
    (login
        { page := ⟨.tag ⟨some (.str "http://x/auth?session_code=sc1&tab_id=t1")⟩⟩
          cred := { statusCode := 200, location := none }
          keycloakIdentityCookie := false
          token := { statusCode := 200, access_token := none, text := "" } }).2 =
      .ok { is_successful := false
            message := "Login failed or KEYCLOAK_IDENTITY cookie is missing"
            access_token := none } :=
  ⟨rfl, Or.inl (by decide),
    login_failure_is_returned
      { page := ⟨.tag ⟨some (.str "http://x/auth?session_code=sc1&tab_id=t1")⟩⟩
        cred := { statusCode := 200, location := none }
        keycloakIdentityCookie := false
        token := { statusCode := 200, access_token := none, text := "" } }
      "sc1" "t1" rfl (Or.inl (by decide))⟩

/-- Claim C7: when the login form is absent, or present but not a valid
form node, or its `action` attribute is missing or not a string,
form-field extraction fails with the distinct `LoginFormNotFound` error
(never returning partial correlation tokens), the same error escapes
`login`, and `login` issues no credential POST for that page. -/
theorem malformed_page_no_credential_post (w : AuthWorld)
    (h : w.page.findLoginForm = .missing ∨ w.page.findLoginForm = .notTag ∨
         ∃ f, w.page.findLoginForm = .tag f ∧
           ∀ s, f.action ≠ some (.str s)) :
    (∃ msg, getSessionCodeAndTabId w.page = .error (.loginFormNotFound msg)) ∧
    (∃ msg, (login w).2 = .error (.loginFormNotFound msg)) ∧
    ∀ req ∈ (login w).1, req.kind ≠ CallKind.credentialPost := by
  have hext : ∃ msg,
      getSessionCodeAndTabId w.page = .error (.loginFormNotFound msg) := by
    rcases h with h | h | ⟨f, hf, ha⟩
    · exact ⟨"Login form not found or is not a valid HTML form element.",
        by simp [getSessionCodeAndTabId, h]⟩
    · exact ⟨"Login form not found or is not a valid HTML form element.",
        by simp [getSessionCodeAndTabId, h]⟩
    · refine ⟨"The action URL is not a valid string.", ?_⟩
      rcases hact : f.action with _ | v
      · simp [getSessionCodeAndTabId, hf, hact]
      · cases v with
        | str s => exact absurd hact (ha s)
        | list l => simp [getSessionCodeAndTabId, hf, hact]
  obtain ⟨msg, hmsg⟩ := hext
  refine ⟨⟨msg, hmsg⟩, ⟨msg, ?_⟩, ?_⟩
  · simp [login, hmsg]
  · intro req hreq
    simp [login, hmsg] at hreq
    rw [hreq]
    simp

/-- Claim C7, witness: a page on which the login form is missing. -/
theorem malformed_page_no_credential_post_witness :
    (LoginPage.findLoginForm ⟨.missing⟩ = .missing ∨
      LoginPage.findLoginForm ⟨.missing⟩ = .notTag ∨
      ∃ f, LoginPage.findLoginForm ⟨.missing⟩ = .tag f ∧
        ∀ s, f.action ≠ some (.str s)) ∧
    ((∃ msg, getSessionCodeAndTabId ⟨.missing⟩ =
        .error (.loginFormNotFound msg)) ∧
    (∃ msg,
      (login
          { page := ⟨.missing⟩
            cred := { statusCode := 302, location := none }
            keycloakIdentityCookie := true
            token := { statusCode := 200, access_token := none, text := "" } }).2 =
        .error (.loginFormNotFound msg)) ∧
    ∀ req ∈
      (login
          { page := ⟨.missing⟩
            cred := { statusCode := 302, location := none }
            keycloakIdentityCookie := true
            token := { statusCode := 200, access_token := none, text := "" } }).1,
      req.kind ≠ CallKind.credentialPost) :=
  ⟨Or.inl rfl,
    malformed_page_no_credential_post
      { page := ⟨.missing⟩
        cred := { statusCode := 302, location := none }
        keycloakIdentityCookie := true
        token := { statusCode := 200, access_token := none, text := "" } }
      (Or.inl rfl)⟩

/-! ## Claims about the action primitives (C8) and timeouts (C9) -/

/-- Claim C8: for the upload action's PUT of the file bytes to the signed
URL, an HTTP 200 is success; any other status is a fatal action failure
carrying the HTTP status and response body, and that failure is not caught
inside the action — it propagates unchanged out of `bulk_query_aisr`. -/
theorem put_status_policy (info : SchoolQueryInformation)
    (signing : SigningResponse) (put ok200 : S3Response) (p : String)
    (hpath : info.query_file_path = some p)
    (h200 : ok200.statusCode = 200)
    (hne : put.statusCode ≠ 200) :
    (putFileToS3 ok200).2 =
      .ok { is_successful := true, message := "File uploaded successfully" } ∧
    (putFileToS3 put).2 =
      .error (.actionFailed (uploadFailMessage put.statusCode put.text)) ∧
    (bulkQueryAisr info signing put).2 =
      .error (.actionFailed (uploadFailMessage put.statusCode put.text)) := by
  refine ⟨by simp [putFileToS3, h200], by simp [putFileToS3, hne], ?_⟩
  simp [bulkQueryAisr, hpath, putFileToS3, hne]

/-- Claim C8, witness: a 200 PUT succeeds; a 403 PUT with body
`"denied"` fails fatally and the failure escapes `bulk_query_aisr`. -/
theorem put_status_policy_witness :
    SchoolQueryInformation.query_file_path
        { school_name := "s", classification := "N", school_id := "1234"
          email_contact := "a@b.c", query_file_path := some "q.csv" } =
      some "q.csv" ∧
    S3Response.statusCode { statusCode := 200, text := "" } = 200 ∧
    S3Response.statusCode { statusCode := 403, text := "denied" } ≠ 200 ∧
    ((putFileToS3 { statusCode := 200, text := "" }).2 =
      .ok { is_successful := true, message := "File uploaded successfully" } ∧
    (putFileToS3 { statusCode := 403, text := "denied" }).2 =
      .error (.actionFailed (uploadFailMessage 403 "denied")) ∧
    (bulkQueryAisr
        { school_name := "s", classification := "N", school_id := "1234"
          email_contact := "a@b.c", query_file_path := some "q.csv" }
        { url := some "https://s3/signed" }
        { statusCode := 403, text := "denied" }).2 =
      .error (.actionFailed (uploadFailMessage 403 "denied"))) :=
  ⟨rfl, rfl, by decide,
    put_status_policy
      { school_name := "s", classification := "N", school_id := "1234"
        email_contact := "a@b.c", query_file_path := some "q.csv" }
      { url := some "https://s3/signed" }
      { statusCode := 403, text := "denied" }
      { statusCode := 200, text := "" }
      "q.csv" rfl rfl (by decide)⟩

/-- Claim C9, counterexample.  The claim states that every outbound HTTP
call of the core carries an explicit finite timeout.  On the code, a fully
successful `login` issues its auth-page GET, credential POST and token
POST all without any `timeout` argument. -/
theorem login_calls_carry_no_timeout :
    ((login
        { page := ⟨.tag ⟨some (.str "http://x/auth?session_code=sc1&tab_id=t1")⟩⟩
          cred := { statusCode := 302, location := some "https://host/home#code=abc" }
          keycloakIdentityCookie := true
          token := { statusCode := 200, access_token := some "tok123", text := "" } }).1.all
      fun req => req.timeout.isSome) = false := by
  rfl

/-- Claim C9, amended: the action primitives' signing POST and S3 PUT each
carry an explicit 60-second timeout, but none of the Authentication
Client's calls (auth-page GET, credential POST, token POST, logout GET)
carries any timeout. -/
theorem timeout_policy_by_module (w : AuthWorld) (lr : LogoutResponse)
    (info : SchoolQueryInformation) (signing : SigningResponse)
    (put : S3Response) :
    (∀ req ∈ (login w).1, req.timeout = none) ∧
    (∀ req ∈ (logout lr).1, req.timeout = none) ∧
    (∀ req ∈ (bulkQueryAisr info signing put).1, req.timeout = some 60) := by
  refine ⟨?_, ?_, ?_⟩
  · intro req hreq
    unfold login at hreq
    rcases hS : getSessionCodeAndTabId w.page with e | pr <;> rw [hS] at hreq
    · simp at hreq
      rw [hreq]
    · by_cases hc : w.cred.statusCode = 302 ∧ w.keycloakIdentityCookie = true
      · rw [if_pos hc] at hreq
        rcases hC : getCodeFromResponse w.cred with e | c <;> rw [hC] at hreq
        · simp at hreq
          rcases hreq with rfl | rfl <;> rfl
        · rcases hT : getAccessTokenUsingResponseCode w.token with e | tok <;>
            rw [hT] at hreq <;> simp at hreq <;>
            rcases hreq with rfl | rfl | rfl <;> rfl
      · rw [if_neg hc] at hreq
        simp at hreq
        rcases hreq with rfl | rfl <;> rfl
  · intro req hreq
    simp [logout] at hreq
    rw [hreq]
  · intro req hreq
    unfold bulkQueryAisr at hreq
    rcases hp : info.query_file_path with _ | p <;> rw [hp] at hreq
    · simp at hreq
    · simp only [getPutUrl, putFileToS3] at hreq
      by_cases hs : put.statusCode = 200
      · rw [if_pos hs] at hreq
        simp at hreq
        rcases hreq with rfl | rfl <;> rfl
      · rw [if_neg hs] at hreq
        simp at hreq
        rcases hreq with rfl | rfl <;> rfl

/-! ## Claim about logout (C10) -/

/-- Claim C10: `logout` returns an `AISRAuthResponse` with
`is_successful = true`, message `"Logged out successfully"` and no token,
for every possible logout response — it never inspects the response's
status or body, so its result (and its whole behaviour) is the same for
any two responses. -/
theorem logout_always_successful (r r' : LogoutResponse) :
    (logout r).2 =
      { is_successful := true
        message := "Logged out successfully"
        access_token := none } ∧
    logout r = logout r' :=
  ⟨rfl, rfl⟩

end AISR
